import Mathlib

/-!
Shallow embedding of the kiosk-comunsoft-server core (src/server.js and
src/database-postgres.js): the in-memory device registry (`activeTablets`,
a JS Map from socket id to tablet record), the socket event handlers
(tablet-register, tablet-status, send-command, disconnect), the REST
command route (POST /api/command/:tabletId), the /api/stats aggregate,
the staleness sweep (the 5-minute setInterval), and the persistence
gateway's error handling (Database.updateTablet / Database.logCommand).

Modelling conventions:
- Timestamps are integer milliseconds (`Int`); `new Date().toISOString()`
  and the `new Date(x) < new Date(y)` comparison become plain `Int`
  values compared with `<`.
- A payload field that may be absent (`undefined`) is an `Option`.
- JS `||` on string fields is falsy on the empty string, so
  `data.x || old` becomes `jsOr data.x old`, which keeps `old` both when
  the field is absent and when it is the empty string.  An object field
  (`data.stats`) is truthy whenever present, so `data.stats || old`
  becomes `Option.getD`.
- The JS Map is an association list with unique keys, in insertion
  order; `Map.get/set/delete` become `mapGet/mapSet/mapDelete`.
-/

/-- Stats blob carried by a tablet record (`data.stats`); treated as an
opaque key/value object, modelled as a list of string pairs. -/
abbrev Stats := List (String × String)

/-- One tablet record, as built by the tablet-register handler
(src/server.js:54-63): fields id, name, ip, status, currentUrl,
lastSeen, uptime, stats.  `lastSeen` is in milliseconds. -/
structure TabletInfo where
  id : String
  name : String
  ip : String
  status : String
  currentUrl : String
  lastSeen : Int
  uptime : String
  stats : Stats
deriving DecidableEq, Repr

/-- Payload of the tablet-register message (src/server.js:53): every
field is optional (`undefined` when missing). -/
structure RegisterData where
  tabletId : Option String
  name : Option String
  ip : Option String
  currentUrl : Option String
  uptime : Option String
  stats : Option Stats
deriving DecidableEq, Repr

/-- Payload of the tablet-status message (src/server.js:75): every field
is optional. -/
structure StatusData where
  currentUrl : Option String
  uptime : Option String
  stats : Option Stats
deriving DecidableEq, Repr

/-- One row appended to command_logs by Database.logCommand
(src/server.js:104-110 and 185-191): tabletId, command, params blob
(kept opaque as a string), timestamp, source ip. -/
structure CommandLog where
  tabletId : String
  command : String
  params : String
  timestamp : Int
  sourceIp : String
deriving DecidableEq, Repr

/-- Broadcast events emitted with socket.broadcast.emit: tablet-online
(src/server.js:71), tablet-status-update (src/server.js:87),
tablet-offline (src/server.js:145). -/
inductive Event where
  | tabletOnline (info : TabletInfo)
  | tabletStatusUpdate (info : TabletInfo)
  | tabletOffline (info : TabletInfo)
deriving DecidableEq, Repr

/-- Result of the POST /api/command/:tabletId route (src/server.js:171-203):
200 success, or a 404 with an error string. -/
inductive RestResult where
  | ok
  | notFound (error : String)
deriving DecidableEq, Repr

/-- The activeTablets Map (src/server.js:37): association list from
socket id to tablet record, unique keys, insertion order. -/
abbrev Registry := List (String × TabletInfo)

/-- Map.get: first (and, for a map built by set/delete, only) entry with
the given key. -/
def mapGet (m : Registry) (k : String) : Option TabletInfo :=
  match m with
  | [] => none
  | (k', v') :: rest => if k' = k then some v' else mapGet rest k

/-- Map.set: replace in place when the key exists (JS Map keeps the
original insertion position), otherwise append at the end. -/
def mapSet (m : Registry) (k : String) (v : TabletInfo) : Registry :=
  match m with
  | [] => [(k, v)]
  | (k', v') :: rest => if k' = k then (k, v) :: rest else (k', v') :: mapSet rest k v

/-- Map.delete: remove the (unique) entry with the given key. -/
def mapDelete (m : Registry) (k : String) : Registry :=
  match m with
  | [] => []
  | (k', v') :: rest => if k' = k then rest else (k', v') :: mapDelete rest k

/-- JS `x || d` on a possibly-absent string: absent (`undefined`) and
the empty string are falsy, every other string is truthy. -/
def jsOr (x : Option String) (d : String) : String :=
  match x with
  | none => d
  | some s => if s = "" then d else s

/-- Derived default display name (src/server.js:56):
`Tablet-socketId.substring(0,8)`. -/
def placeholderName (socketId : String) : String :=
  "Tablet-" ++ socketId.take 8

/-- The record built by the tablet-register handler (src/server.js:54-63):
id `data.tabletId || socket.id`, name `data.name || placeholder`,
ip `data.ip || socket.handshake.address`, status online,
currentUrl `data.currentUrl || empty`, lastSeen now,
uptime `data.uptime || 00:00:00`, stats `data.stats || empty object`. -/
def buildTabletInfo (now : Int) (socketId handshakeAddress : String)
    (data : RegisterData) : TabletInfo :=
  { id := jsOr data.tabletId socketId
    name := jsOr data.name (placeholderName socketId)
    ip := jsOr data.ip handshakeAddress
    status := "online"
    currentUrl := jsOr data.currentUrl ""
    lastSeen := now
    uptime := jsOr data.uptime "00:00:00"
    stats := data.stats.getD [] }

/-- Output of one event-handler run: the new registry, the tablet rows
written through db.updateTablet, the rows written through db.logCommand,
the socket.broadcast.emit events, the remote-command messages sent to a
target socket, and the command-error reply to the calling socket. -/
structure StepOut where
  registry : Registry
  dbTabletWrites : List TabletInfo
  dbCommandLogs : List CommandLog
  broadcasts : List Event
  sentCommands : List (String × String)
  callerError : Option String
deriving DecidableEq, Repr

/-- A handler run that does nothing but keep the registry. -/
def noStep (m : Registry) : StepOut :=
  { registry := m, dbTabletWrites := [], dbCommandLogs := [],
    broadcasts := [], sentCommands := [], callerError := none }

/-- The tablet-register handler (src/server.js:53-72): build the record,
set it under the socket id, write it to the db, broadcast tablet-online. -/
def registerHandler (now : Int) (socketId handshakeAddress : String)
    (data : RegisterData) (m : Registry) : StepOut :=
  let tabletInfo := buildTabletInfo now socketId handshakeAddress data
  { registry := mapSet m socketId tabletInfo
    dbTabletWrites := [tabletInfo]
    dbCommandLogs := []
    broadcasts := [Event.tabletOnline tabletInfo]
    sentCommands := []
    callerError := none }

/-- The tablet-status handler (src/server.js:75-89): when the socket has
a record, merge currentUrl/uptime/stats with JS `||` semantics, refresh
lastSeen, write the record to the db and broadcast
tablet-status-update; otherwise do nothing. -/
def statusHandler (now : Int) (socketId : String) (data : StatusData)
    (m : Registry) : StepOut :=
  match mapGet m socketId with
  | none => noStep m
  | some tablet =>
    let tablet' : TabletInfo :=
      { tablet with
        currentUrl := jsOr data.currentUrl tablet.currentUrl
        uptime := jsOr data.uptime tablet.uptime
        stats := data.stats.getD tablet.stats
        lastSeen := now }
    { registry := mapSet m socketId tablet'
      dbTabletWrites := [tablet']
      dbCommandLogs := []
      broadcasts := [Event.tabletStatusUpdate tablet']
      sentCommands := []
      callerError := none }

/-- The disconnect handler (src/server.js:132-147): when the socket has
a record, mark it offline with lastSeen now, write it to the db, delete
the binding, broadcast tablet-offline; otherwise do nothing. -/
def disconnectHandler (now : Int) (socketId : String) (m : Registry) : StepOut :=
  match mapGet m socketId with
  | none => noStep m
  | some tablet =>
    let tablet' : TabletInfo := { tablet with status := "offline", lastSeen := now }
    { registry := mapDelete m socketId
      dbTabletWrites := [tablet']
      dbCommandLogs := []
      broadcasts := [Event.tabletOffline tablet']
      sentCommands := []
      callerError := none }

/-- lookupByLogicalId (the scan in src/server.js:96-97 and 176-177):
first active record whose id field matches. -/
def lookupByLogicalId (m : Registry) (tabletId : String) : Option TabletInfo :=
  (m.find? (fun kv => decide (kv.2.id = tabletId))).map Prod.snd

/-- The send-command handler (src/server.js:92-117): scan the live
sockets for one whose registry record has the requested id; if found,
emit remote-command to it and log the command; otherwise reply
command-error to the caller, log nothing, change nothing. -/
def sendCommandHandler (now : Int) (senderIp : String) (sockets : List String)
    (tabletId command params : String) (m : Registry) : StepOut :=
  match sockets.find? (fun s => decide ((mapGet m s).map TabletInfo.id = some tabletId)) with
  | some target =>
    { registry := m
      dbTabletWrites := []
      dbCommandLogs := [{ tabletId := tabletId, command := command, params := params,
                          timestamp := now, sourceIp := senderIp }]
      broadcasts := []
      sentCommands := [(target, command)]
      callerError := none }
  | none =>
    { registry := m
      dbTabletWrites := []
      dbCommandLogs := []
      broadcasts := []
      sentCommands := []
      callerError := some "Tablet no encontrada o desconectada" }

/-- The POST /api/command/:tabletId route (src/server.js:171-203): find
the registry entry whose record id matches, then the live socket for
that entry; emit and log on success, 404 otherwise. -/
def apiCommandHandler (now : Int) (reqIp : String) (sockets : List String)
    (tabletId command params : String) (m : Registry) : StepOut × RestResult :=
  match (m.find? (fun kv => decide (kv.2.id = tabletId))).map Prod.fst with
  | some socketId =>
    if sockets.contains socketId then
      ({ registry := m
         dbTabletWrites := []
         dbCommandLogs := [{ tabletId := tabletId, command := command, params := params,
                             timestamp := now, sourceIp := reqIp }]
         broadcasts := []
         sentCommands := [(socketId, command)]
         callerError := none }, RestResult.ok)
    else
      (noStep m, RestResult.notFound "Socket no encontrado")
  | none =>
    (noStep m, RestResult.notFound "Tablet no encontrada")

/-- Staleness threshold (src/server.js:239): 5 minutes in milliseconds. -/
def staleThreshold : Int := 5 * 60 * 1000

/-- Stale test of the sweep (src/server.js:242):
`new Date(tablet.lastSeen) < fiveMinutesAgo`. -/
def isStale (cutoff : Int) (t : TabletInfo) : Bool :=
  decide (t.lastSeen < cutoff)

/-- The staleness sweep (src/server.js:238-249): cutoff is
`now - staleThreshold`; every entry whose lastSeen is strictly below the
cutoff is written to the db with status offline (lastSeen untouched) and
deleted from the registry.  The sweep broadcasts nothing. -/
def sweep (now : Int) (m : Registry) : StepOut :=
  let cutoff := now - staleThreshold
  { registry := m.filter (fun kv => ! isStale cutoff kv.2)
    dbTabletWrites :=
      (m.filter (fun kv => isStale cutoff kv.2)).map
        (fun kv => { kv.2 with status := "offline" })
    dbCommandLogs := []
    broadcasts := []
    sentCommands := []
    callerError := none }

/-- snapshot: Array.from(activeTablets.values()) (src/server.js:152). -/
def snapshot (m : Registry) : List TabletInfo :=
  m.map Prod.snd

/-- Aggregate stats of GET /api/stats (src/server.js:211-219):
totalTablets is the registry size, onlineTablets counts records whose
status field is the string online. -/
structure StatsOut where
  totalTablets : Nat
  onlineTablets : Nat
deriving DecidableEq, Repr

/-- GET /api/stats handler (src/server.js:211-219). -/
def apiStats (m : Registry) : StatsOut :=
  { totalTablets := m.length
    onlineTablets := (m.filter (fun kv => decide (kv.2.status = "online"))).length }

/-- Outcome of one Database method call (src/database-postgres.js):
how many pool.query calls were issued, what exception (if any) escaped
to the caller, and what error message (if any) went to console.error. -/
structure DbCallResult where
  queriesIssued : Nat
  threw : Option String
  loggedError : Option String
deriving DecidableEq, Repr

/-- Database.updateTablet (src/database-postgres.js:119-140): one
pool.query inside try/catch; a failure is logged to console.error and
swallowed, never rethrown, never retried. -/
def updateTablet (tabletInfo : TabletInfo) (poolOutcome : Except String Unit) :
    DbCallResult :=
  match tabletInfo, poolOutcome with
  | _, Except.ok _ => { queriesIssued := 1, threw := none, loggedError := none }
  | _, Except.error err => { queriesIssued := 1, threw := none, loggedError := some err }

/-- Database.logCommand (src/database-postgres.js:189-201): one
pool.query inside try/catch; a failure is logged to console.error and
swallowed, never rethrown, never retried. -/
def logCommand (commandInfo : CommandLog) (poolOutcome : Except String Unit) :
    DbCallResult :=
  match commandInfo, poolOutcome with
  | _, Except.ok _ => { queriesIssued := 1, threw := none, loggedError := none }
  | _, Except.error err => { queriesIssued := 1, threw := none, loggedError := some err }

/-- The tablet-status handler followed by its fire-and-forget
db.updateTablet call (src/server.js:83-84): the handler's registry is
computed before and independently of the persistence outcome. -/
def statusThenPersist (now : Int) (socketId : String) (data : StatusData)
    (m : Registry) (poolOutcome : Except String Unit) : Registry × DbCallResult :=
  let out := statusHandler now socketId data m
  (out.registry,
   match out.dbTabletWrites with
   | [] => { queriesIssued := 0, threw := none, loggedError := none }
   | t :: _ => updateTablet t poolOutcome)

/-- Registry states reachable from the empty initial map
(src/server.js:37) through the event handlers and the sweep, each
executing to completion on the single-threaded event loop. -/
inductive Reachable : Registry → Prop where
  | init : Reachable []
  | register (now : Int) (sid addr : String) (data : RegisterData) (m : Registry) :
      Reachable m → Reachable (registerHandler now sid addr data m).registry
  | status (now : Int) (sid : String) (data : StatusData) (m : Registry) :
      Reachable m → Reachable (statusHandler now sid data m).registry
  | disconnect (now : Int) (sid : String) (m : Registry) :
      Reachable m → Reachable (disconnectHandler now sid m).registry
  | sendCommand (now : Int) (ip : String) (sockets : List String)
      (tid cmd prm : String) (m : Registry) :
      Reachable m → Reachable (sendCommandHandler now ip sockets tid cmd prm m).registry
  | apiCommand (now : Int) (ip : String) (sockets : List String)
      (tid cmd prm : String) (m : Registry) :
      Reachable m → Reachable (apiCommandHandler now ip sockets tid cmd prm m).1.registry
  | sweepStep (now : Int) (m : Registry) :
      Reachable m → Reachable (sweep now m).registry

/-! Helper lemmas about the Map model. -/

theorem mapGet_mapSet_self (m : Registry) (k : String) (v : TabletInfo) :
    mapGet (mapSet m k v) k = some v := by
  induction m with
  | nil => simp [mapSet, mapGet]
  | cons kv rest ih =>
    obtain ⟨k', v'⟩ := kv
    by_cases h : k' = k
    · simp [mapSet, mapGet, h]
    · simp [mapSet, mapGet, h, ih]

theorem mem_of_mapGet (m : Registry) (k : String) (v : TabletInfo)
    (h : mapGet m k = some v) : (k, v) ∈ m := by
  induction m with
  | nil => simp [mapGet] at h
  | cons kv rest ih =>
    obtain ⟨k', v'⟩ := kv
    by_cases hk : k' = k
    · subst hk
      simp [mapGet] at h
      subst h
      exact List.mem_cons_self _ _
    · simp [mapGet, hk] at h
      exact List.mem_cons_of_mem _ (ih h)

theorem mapGet_eq_none_of_forall_not_mem (m : Registry) (k : String)
    (h : ∀ v, (k, v) ∉ m) : mapGet m k = none := by
  induction m with
  | nil => rfl
  | cons kv rest ih =>
    obtain ⟨k', v'⟩ := kv
    have hk : ¬ k' = k := by
      intro e
      subst e
      exact h v' (List.mem_cons_self _ _)
    simp only [mapGet, if_neg hk]
    exact ih (fun v hv => h v (List.mem_cons_of_mem _ hv))

theorem mapGet_mapDelete_self (m : Registry) (k : String)
    (h : (m.map Prod.fst).Nodup) : mapGet (mapDelete m k) k = none := by
  induction m with
  | nil => rfl
  | cons kv rest ih =>
    obtain ⟨k', v'⟩ := kv
    rw [List.map_cons, List.nodup_cons] at h
    by_cases hk : k' = k
    · subst hk
      simp only [mapDelete, if_pos rfl]
      exact mapGet_eq_none_of_forall_not_mem rest k' (fun v hv =>
        h.1 (List.mem_map.mpr ⟨(k', v), hv, rfl⟩))
    · simp only [mapDelete, if_neg hk, mapGet, if_neg hk]
      exact ih h.2

theorem mem_mapSet (m : Registry) (k : String) (v : TabletInfo)
    (kv : String × TabletInfo) (h : kv ∈ mapSet m k v) :
    kv = (k, v) ∨ kv ∈ m := by
  induction m with
  | nil => simpa [mapSet] using h
  | cons kv' rest ih =>
    obtain ⟨k', v'⟩ := kv'
    by_cases hk : k' = k
    · simp [mapSet, hk] at h
      rcases h with h | h
      · exact Or.inl h
      · exact Or.inr (List.mem_cons_of_mem _ h)
    · simp [mapSet, hk] at h
      rcases h with h | h
      · exact Or.inr (by simp [h])
      · rcases ih h with h1 | h1
        · exact Or.inl h1
        · exact Or.inr (List.mem_cons_of_mem _ h1)

theorem mem_mapDelete (m : Registry) (k : String)
    (kv : String × TabletInfo) (h : kv ∈ mapDelete m k) : kv ∈ m := by
  induction m with
  | nil => simp [mapDelete] at h
  | cons kv' rest ih =>
    obtain ⟨k', v'⟩ := kv'
    by_cases hk : k' = k
    · simp [mapDelete, hk] at h
      exact List.mem_cons_of_mem _ h
    · simp [mapDelete, hk] at h
      rcases h with h | h
      · simp [h]
      · exact List.mem_cons_of_mem _ (ih h)

/-! Concrete data used by witnesses and counterexamples. -/

/-- A concrete tablet record: registered with tabletId A, last seen at
time 0. -/
def sampleTablet : TabletInfo :=
  { id := "A", name := "Lobby", ip := "10.0.0.5", status := "online",
    currentUrl := "https://example.com", lastSeen := 0,
    uptime := "00:10:00", stats := [] }

/-- A register payload with every field absent. -/
def emptyRegisterData : RegisterData :=
  { tabletId := none, name := none, ip := none,
    currentUrl := none, uptime := none, stats := none }

/-! Claim theorems. -/

/-- C5: a Reaper sweep evicts exactly the active bindings whose
lastSeen is strictly earlier than now minus the stale threshold; in
particular a device last seen at T survives a sweep at
T + staleThreshold - 1000 ms and is evicted by a sweep at
T + staleThreshold + 1000 ms. -/
theorem sweep_evicts_exactly_stale :
    ∀ (now : Int) (m : Registry) (kv : String × TabletInfo)
      (T : Int) (sid : String) (t : TabletInfo),
      (kv ∈ m →
        (kv ∈ (sweep now m).registry ↔ ¬ (kv.2.lastSeen < now - staleThreshold)))
      ∧ (t.lastSeen = T →
          (sid, t) ∈ (sweep (T + staleThreshold - 1000) [(sid, t)]).registry
          ∧ (sid, t) ∉ (sweep (T + staleThreshold + 1000) [(sid, t)]).registry) := by
  intro now m kv T sid t
  constructor
  · intro hmem
    simp [sweep, List.mem_filter, hmem, isStale]
  · intro hT
    constructor
    · simp [sweep, List.mem_filter, isStale, hT]
    · simp [sweep, List.mem_filter, isStale, hT]

/-- Witness for sweep_evicts_exactly_stale: the concrete device last
seen at 0 is kept by a sweep 1 s before the threshold and evicted by a
sweep 1 s after it. -/
theorem sweep_evicts_exactly_stale_witness :
    sampleTablet.lastSeen = 0
    ∧ ("s", sampleTablet) ∈ (sweep (0 + staleThreshold - 1000) [("s", sampleTablet)]).registry
    ∧ ("s", sampleTablet) ∉ (sweep (0 + staleThreshold + 1000) [("s", sampleTablet)]).registry := by
  have h := (sweep_evicts_exactly_stale (0 + staleThreshold - 1000)
      [("s", sampleTablet)] ("s", sampleTablet) 0 "s" sampleTablet).2 rfl
  exact ⟨rfl, h.1, h.2⟩

/-- C6: for a connection handle with an active binding, the disconnect
handler persists and broadcasts the final record with status offline and
lastSeen refreshed to now, and the binding is gone from the active
registry (hence from snapshot).  The Nodup hypothesis is the JS Map
property that keys are unique. -/
theorem remove_marks_offline_then_deletes :
    ∀ (now : Int) (sid : String) (m : Registry) (t : TabletInfo),
      (m.map Prod.fst).Nodup → mapGet m sid = some t →
      (disconnectHandler now sid m).dbTabletWrites
          = [{ t with status := "offline", lastSeen := now }]
      ∧ (disconnectHandler now sid m).broadcasts
          = [Event.tabletOffline { t with status := "offline", lastSeen := now }]
      ∧ mapGet (disconnectHandler now sid m).registry sid = none := by
  intro now sid m t hnodup hget
  refine ⟨?_, ?_, ?_⟩ <;> simp [disconnectHandler, hget]
  exact mapGet_mapDelete_self m sid hnodup

/-- Witness for remove_marks_offline_then_deletes at a concrete
one-entry registry. -/
theorem remove_marks_offline_then_deletes_witness :
    ([("s", sampleTablet)].map Prod.fst).Nodup
    ∧ (disconnectHandler 9 "s" [("s", sampleTablet)]).dbTabletWrites
        = [{ sampleTablet with status := "offline", lastSeen := 9 }]
    ∧ mapGet (disconnectHandler 9 "s" [("s", sampleTablet)]).registry "s" = none := by
  have h := remove_marks_offline_then_deletes 9 "s" [("s", sampleTablet)] sampleTablet
      (by decide) (by decide)
  exact ⟨by decide, h.1, h.2.2⟩

/-- C7: register always succeeds and binds, under the connection handle,
a record with status online and lastSeen now, defaulting the logical id
to the connection handle and the display name to the derived placeholder
when the payload omits them, overwriting any previously bound record. -/
theorem register_upsert_defaults :
    ∀ (now : Int) (sid addr : String) (data : RegisterData) (m : Registry),
      mapGet (registerHandler now sid addr data m).registry sid
          = some (buildTabletInfo now sid addr data)
      ∧ (buildTabletInfo now sid addr data).status = "online"
      ∧ (buildTabletInfo now sid addr data).lastSeen = now
      ∧ (data.tabletId = none → (buildTabletInfo now sid addr data).id = sid)
      ∧ (data.name = none →
          (buildTabletInfo now sid addr data).name = placeholderName sid) := by
  intro now sid addr data m
  refine ⟨?_, rfl, rfl, ?_, ?_⟩
  · simpa [registerHandler] using mapGet_mapSet_self m sid _
  · intro h
    simp [buildTabletInfo, jsOr, h]
  · intro h
    simp [buildTabletInfo, jsOr, h]

/-- Witness for register_upsert_defaults: registering with an empty
payload over a non-empty registry binds the defaulted record. -/
theorem register_upsert_defaults_witness :
    emptyRegisterData.tabletId = none
    ∧ mapGet (registerHandler 3 "socket01" "addr" emptyRegisterData
        [("socket01", sampleTablet)]).registry "socket01"
        = some (buildTabletInfo 3 "socket01" "addr" emptyRegisterData)
    ∧ (buildTabletInfo 3 "socket01" "addr" emptyRegisterData).id = "socket01" := by
  refine ⟨rfl, ?_, ?_⟩
  · exact (register_upsert_defaults 3 "socket01" "addr" emptyRegisterData
      [("socket01", sampleTablet)]).1
  · exact (register_upsert_defaults 3 "socket01" "addr" emptyRegisterData
      [("socket01", sampleTablet)]).2.2.2.1 rfl

/-- C10: for a connection handle with an active binding, the status
handler always refreshes lastSeen to now, whatever the payload — even
one with no fields at all — so every status message resets the
staleness clock. -/
theorem status_always_refreshes_lastSeen :
    ∀ (now : Int) (sid : String) (data : StatusData) (m : Registry) (t : TabletInfo),
      mapGet m sid = some t →
      (mapGet (statusHandler now sid data m).registry sid).map TabletInfo.lastSeen
        = some now := by
  intro now sid data m t hget
  simp [statusHandler, hget, mapGet_mapSet_self]

/-- Witness for status_always_refreshes_lastSeen: an all-absent status
payload still refreshes lastSeen. -/
theorem status_always_refreshes_lastSeen_witness :
    mapGet [("s", sampleTablet)] "s" = some sampleTablet
    ∧ (mapGet (statusHandler 7 "s" (StatusData.mk none none none)
        [("s", sampleTablet)]).registry "s").map TabletInfo.lastSeen = some 7 := by
  refine ⟨by decide, ?_⟩
  exact status_always_refreshes_lastSeen 7 "s" (StatusData.mk none none none)
    [("s", sampleTablet)] sampleTablet (by decide)

/-- C8: a failing persistence write is swallowed: updateTablet and
logCommand issue exactly one query, never throw to the calling handler,
log the error message to the console on failure, and the handler's
in-memory registry is the same whatever the persistence outcome. -/
theorem persistence_failures_swallowed :
    ∀ (t : TabletInfo) (c : CommandLog) (o : Except String Unit) (e : String)
      (now : Int) (sid : String) (data : StatusData) (m : Registry),
      (updateTablet t o).threw = none
      ∧ (updateTablet t o).queriesIssued = 1
      ∧ (logCommand c o).threw = none
      ∧ (logCommand c o).queriesIssued = 1
      ∧ (updateTablet t (Except.error e)).loggedError = some e
      ∧ (logCommand c (Except.error e)).loggedError = some e
      ∧ (statusThenPersist now sid data m o).1 = (statusHandler now sid data m).registry := by
  intro t c o e now sid data m
  refine ⟨?_, ?_, ?_, ?_, rfl, rfl, rfl⟩ <;> cases o <;> rfl

/-- When no active record carries the requested logical id, the live
socket scan of the send-command handler finds no target. -/
theorem findTarget_eq_none_of_lookup_none (m : Registry) (tabletId : String)
    (sockets : List String) (h : lookupByLogicalId m tabletId = none) :
    sockets.find? (fun s => decide ((mapGet m s).map TabletInfo.id = some tabletId))
      = none := by
  have hfind : m.find? (fun kv => decide (kv.2.id = tabletId)) = none := by
    unfold lookupByLogicalId at h
    cases hf : m.find? (fun kv => decide (kv.2.id = tabletId)) with
    | none => rfl
    | some kv => rw [hf] at h; simp at h
  have hall := List.find?_eq_none.mp hfind
  apply List.find?_eq_none.mpr
  intro s hs
  cases hg : mapGet m s with
  | none => simp [hg]
  | some t =>
    have hmem := mem_of_mapGet m s t hg
    have hne := hall (s, t) hmem
    simp at hne
    simp [hg, hne]

/-- C4: for a logical id with no active binding, the send-command socket
handler and the POST /api/command route both send no command to any
connection, append no command-log row, leave the registry unchanged, and
report a user-visible device-not-found failure to the caller. -/
theorem dispatch_not_found_no_effect :
    ∀ (now : Int) (senderIp reqIp : String) (sockets : List String)
      (tabletId command params : String) (m : Registry),
      lookupByLogicalId m tabletId = none →
      (sendCommandHandler now senderIp sockets tabletId command params m).registry = m
      ∧ (sendCommandHandler now senderIp sockets tabletId command params m).sentCommands = []
      ∧ (sendCommandHandler now senderIp sockets tabletId command params m).dbCommandLogs = []
      ∧ (sendCommandHandler now senderIp sockets tabletId command params m).callerError
          = some "Tablet no encontrada o desconectada"
      ∧ (apiCommandHandler now reqIp sockets tabletId command params m).1 = noStep m
      ∧ (apiCommandHandler now reqIp sockets tabletId command params m).2
          = RestResult.notFound "Tablet no encontrada" := by
  intro now senderIp reqIp sockets tabletId command params m h
  have hfind : m.find? (fun kv => decide (kv.2.id = tabletId)) = none := by
    unfold lookupByLogicalId at h
    cases hf : m.find? (fun kv => decide (kv.2.id = tabletId)) with
    | none => rfl
    | some kv => rw [hf] at h; simp at h
  have htarget := findTarget_eq_none_of_lookup_none m tabletId sockets h
  have hs : sendCommandHandler now senderIp sockets tabletId command params m
      = { registry := m, dbTabletWrites := [], dbCommandLogs := [], broadcasts := [],
          sentCommands := [], callerError := some "Tablet no encontrada o desconectada" } := by
    unfold sendCommandHandler
    rw [htarget]
  have ha : apiCommandHandler now reqIp sockets tabletId command params m
      = (noStep m, RestResult.notFound "Tablet no encontrada") := by
    unfold apiCommandHandler
    rw [hfind]
    rfl
  refine ⟨?_, ?_, ?_, ?_, ?_, ?_⟩ <;> simp [hs, ha]

/-- Witness for dispatch_not_found_no_effect: id X is not bound in a
registry holding only the sample device with id A. -/
theorem dispatch_not_found_no_effect_witness :
    lookupByLogicalId [("s", sampleTablet)] "X" = none
    ∧ (sendCommandHandler 4 "ip1" ["s"] "X" "reload" "p" [("s", sampleTablet)]).dbCommandLogs = []
    ∧ (sendCommandHandler 4 "ip1" ["s"] "X" "reload" "p" [("s", sampleTablet)]).sentCommands = []
    ∧ (apiCommandHandler 4 "ip2" ["s"] "X" "reload" "p" [("s", sampleTablet)]).2
        = RestResult.notFound "Tablet no encontrada" := by
  have h := dispatch_not_found_no_effect 4 "ip1" "ip2" ["s"] "X" "reload" "p"
      [("s", sampleTablet)] (by decide)
  exact ⟨by decide, h.2.2.1, h.2.1, h.2.2.2.2.2⟩

/-- The send-command handler never changes the registry. -/
theorem sendCommand_registry_eq (now : Int) (ip : String) (sockets : List String)
    (tid cmd prm : String) (m : Registry) :
    (sendCommandHandler now ip sockets tid cmd prm m).registry = m := by
  unfold sendCommandHandler
  cases h : List.find? (fun s => decide (Option.map TabletInfo.id (mapGet m s) = some tid)) sockets <;>
    rfl

/-- The POST /api/command route never changes the registry. -/
theorem apiCommand_registry_eq (now : Int) (ip : String) (sockets : List String)
    (tid cmd prm : String) (m : Registry) :
    (apiCommandHandler now ip sockets tid cmd prm m).1.registry = m := by
  unfold apiCommandHandler
  cases h : Option.map Prod.fst (List.find? (fun kv => decide (kv.2.id = tid)) m) with
  | none => rfl
  | some sid =>
    by_cases hc : sid ∈ sockets <;> simp [hc, noStep]

/-- Every reachable registry state holds only records with status
online: register writes online, updateStatus keeps the status, and both
removal paths mark offline only on the record they delete in the same
handler run. -/
theorem reachable_all_online (m : Registry) (h : Reachable m) :
    ∀ kv ∈ m, (Prod.snd kv).status = "online" := by
  induction h with
  | init =>
    intro kv hkv
    simp at hkv
  | register now sid addr data m' hm ih =>
    intro kv hkv
    simp only [registerHandler] at hkv
    rcases mem_mapSet _ _ _ _ hkv with h1 | h1
    · rw [h1]
      rfl
    · exact ih kv h1
  | status now sid data m' hm ih =>
    intro kv hkv
    cases hg : mapGet m' sid with
    | none =>
      rw [statusHandler] at hkv
      simp only [hg, noStep] at hkv
      exact ih kv hkv
    | some t =>
      rw [statusHandler] at hkv
      simp only [hg] at hkv
      rcases mem_mapSet _ _ _ _ hkv with h1 | h1
      · rw [h1]
        exact ih (sid, t) (mem_of_mapGet m' sid t hg)
      · exact ih kv h1
  | disconnect now sid m' hm ih =>
    intro kv hkv
    cases hg : mapGet m' sid with
    | none =>
      rw [disconnectHandler] at hkv
      simp only [hg, noStep] at hkv
      exact ih kv hkv
    | some t =>
      rw [disconnectHandler] at hkv
      simp only [hg] at hkv
      exact ih kv (mem_mapDelete _ _ _ hkv)
  | sendCommand now ip sockets tid cmd prm m' hm ih =>
    intro kv hkv
    rw [sendCommand_registry_eq] at hkv
    exact ih kv hkv
  | apiCommand now ip sockets tid cmd prm m' hm ih =>
    intro kv hkv
    rw [apiCommand_registry_eq] at hkv
    exact ih kv hkv
  | sweepStep now m' hm ih =>
    intro kv hkv
    simp only [sweep, List.mem_filter] at hkv
    exact ih kv hkv.1

/-- C9: in every registry state observable between event handlers,
every active record has status online, and therefore the /api/stats
onlineTablets count equals totalTablets. -/
theorem reachable_online_invariant :
    ∀ m : Registry, Reachable m →
      (∀ kv ∈ m, (Prod.snd kv).status = "online")
      ∧ (apiStats m).onlineTablets = (apiStats m).totalTablets := by
  intro m h
  have hall := reachable_all_online m h
  refine ⟨hall, ?_⟩
  have hfilter : m.filter (fun kv => decide (kv.2.status = "online")) = m :=
    List.filter_eq_self.mpr (fun kv hkv => by simp [hall kv hkv])
  simp [apiStats, hfilter]

/-- Witness for reachable_online_invariant at the reachable state
obtained by one concrete registration over the empty initial map. -/
theorem reachable_online_invariant_witness :
    (apiStats (registerHandler 0 "s1" "a" emptyRegisterData []).registry).onlineTablets
      = (apiStats (registerHandler 0 "s1" "a" emptyRegisterData []).registry).totalTablets := by
  exact (reachable_online_invariant _
    (Reachable.register 0 "s1" "a" emptyRegisterData [] Reachable.init)).2

/-- C1 counterexample: at a concrete registry holding one stale device,
the sweep does evict it (the registry empties and an offline row is
written), yet its broadcast list is empty — no device-offline event is
raised — and its persisted row differs from the one remove
(the disconnect handler) would write, because the sweep does not refresh
lastSeen.  This refutes the claim that every sweep eviction raises
exactly one device-offline event and matches the effect of remove. -/
theorem sweep_eviction_no_offline_event :
    (sweep (staleThreshold + 1000) [("s", sampleTablet)]).registry = []
    ∧ (sweep (staleThreshold + 1000) [("s", sampleTablet)]).dbTabletWrites
        = [{ sampleTablet with status := "offline" }]
    ∧ (sweep (staleThreshold + 1000) [("s", sampleTablet)]).broadcasts = []
    ∧ (sweep (staleThreshold + 1000) [("s", sampleTablet)]).dbTabletWrites
        ≠ (disconnectHandler (staleThreshold + 1000) "s" [("s", sampleTablet)]).dbTabletWrites := by
  refine ⟨?_, ?_, rfl, ?_⟩ <;> decide

/-- C1 amended: every Reaper sweep eviction of a stale device removes
its binding from the active set and writes the record as offline — with
its original lastSeen, not refreshed to now as remove would — to the
persistence gateway, and raises no device-offline event at all. -/
theorem sweep_eviction_amended :
    ∀ (now : Int) (m : Registry) (sid : String) (t : TabletInfo),
      (sid, t) ∈ m → t.lastSeen < now - staleThreshold →
      (sid, t) ∉ (sweep now m).registry
      ∧ { t with status := "offline" } ∈ (sweep now m).dbTabletWrites
      ∧ (sweep now m).broadcasts = [] := by
  intro now m sid t hmem hstale
  refine ⟨?_, ?_, rfl⟩
  · intro hin
    simp [sweep, List.mem_filter, isStale] at hin
    omega
  · simp only [sweep]
    exact List.mem_map.mpr ⟨(sid, t),
      List.mem_filter.mpr ⟨hmem, by simp [isStale, hstale]⟩, rfl⟩

/-- Witness for sweep_eviction_amended: the sample device, last seen at
0, is evicted by a sweep at staleThreshold + 1000. -/
theorem sweep_eviction_amended_witness :
    ("s", sampleTablet) ∈ [("s", sampleTablet)]
    ∧ sampleTablet.lastSeen < (staleThreshold + 1000) - staleThreshold
    ∧ { sampleTablet with status := "offline" }
        ∈ (sweep (staleThreshold + 1000) [("s", sampleTablet)]).dbTabletWrites := by
  refine ⟨by decide, by decide, ?_⟩
  exact (sweep_eviction_amended (staleThreshold + 1000) [("s", sampleTablet)]
    "s" sampleTablet (by decide) (by decide)).2.1

/-- C2 counterexample: on one connection handle, register first with
tabletId A, then register again with tabletId absent.  The prior
record's logicalId A is not preserved: the second register rebinds the
record with id equal to the connection handle, which differs from A.
This refutes the claim that the second register preserves the prior
logicalId when the payload omits it. -/
theorem reregister_does_not_preserve_logicalId :
    (mapGet (registerHandler 0 "sock" "addr"
        { tabletId := some "A", name := none, ip := none,
          currentUrl := none, uptime := none, stats := none } []).registry
        "sock").map TabletInfo.id = some "A"
    ∧ (mapGet (registerHandler 1 "sock" "addr" emptyRegisterData
        (registerHandler 0 "sock" "addr"
          { tabletId := some "A", name := none, ip := none,
            currentUrl := none, uptime := none, stats := none } []).registry).registry
        "sock").map TabletInfo.id = some "sock"
    ∧ "sock" ≠ "A" := by
  refine ⟨?_, ?_, ?_⟩ <;> decide

/-- C2 amended: a second register on the same connection handle rebuilds
and overwrites the whole record from the second payload; when that
payload omits the logical id (or carries the falsy empty string) the
logicalId becomes the connection handle — so the prior logicalId is
preserved only when it already equals the connection handle — and when
it carries a non-empty logical id the logicalId changes to that value. -/
theorem reregister_overwrites_amended :
    ∀ (now1 now2 : Int) (sid addr1 addr2 : String) (d1 d2 : RegisterData) (m : Registry),
      mapGet (registerHandler now2 sid addr2 d2
          (registerHandler now1 sid addr1 d1 m).registry).registry sid
        = some (buildTabletInfo now2 sid addr2 d2)
      ∧ (d2.tabletId = none → (buildTabletInfo now2 sid addr2 d2).id = sid)
      ∧ (∀ v, d2.tabletId = some v → v ≠ "" →
          (buildTabletInfo now2 sid addr2 d2).id = v) := by
  intro now1 now2 sid addr1 addr2 d1 d2 m
  refine ⟨?_, ?_, ?_⟩
  · simpa [registerHandler] using mapGet_mapSet_self _ sid _
  · intro h
    simp [buildTabletInfo, jsOr, h]
  · intro v h hv
    simp [buildTabletInfo, jsOr, h, hv]

/-- Witness for reregister_overwrites_amended: after a first register
with tabletId A, a second register with an empty payload binds a record
whose id is the connection handle. -/
theorem reregister_overwrites_amended_witness :
    emptyRegisterData.tabletId = none
    ∧ (buildTabletInfo 1 "sock" "addr" emptyRegisterData).id = "sock" := by
  refine ⟨rfl, ?_⟩
  exact (reregister_overwrites_amended 0 1 "sock" "addr" "addr"
    { tabletId := some "A", name := none, ip := none,
      currentUrl := none, uptime := none, stats := none }
    emptyRegisterData []).2.1 rfl

/-- C3 counterexample: with an active binding whose currentUrl is
non-empty, a status payload whose currentUrl field is present but equal
to the empty string is not merged — the old currentUrl survives,
because the handler uses the JS falsy-or idiom.  This refutes the claim
that updateStatus merges exactly the fields present in the payload. -/
theorem status_present_empty_not_merged :
    (mapGet (statusHandler 5 "s" (StatusData.mk (some "") none none)
        [("s", sampleTablet)]).registry "s").map TabletInfo.currentUrl
      = some "https://example.com"
    ∧ "https://example.com" ≠ "" := by
  refine ⟨?_, ?_⟩ <;> decide

/-- C3 amended: with an active binding, the status handler merges
exactly the truthy fields of the payload: a currentUrl or uptime that is
absent or present-but-empty leaves the old value, a present non-empty
one overwrites it, and a present stats object always overwrites; the
handler also refreshes lastSeen and leaves id, name, ip and status
untouched.  With no binding the handler is a complete no-op: registry
unchanged, nothing written, nothing emitted, no error surfaced to the
remote peer. -/
theorem status_merge_amended :
    ∀ (now : Int) (sid : String) (data : StatusData) (m : Registry),
      (∀ t, mapGet m sid = some t →
        (mapGet (statusHandler now sid data m).registry sid).map TabletInfo.lastSeen
            = some now
        ∧ (data.currentUrl = none →
            (mapGet (statusHandler now sid data m).registry sid).map TabletInfo.currentUrl
              = some t.currentUrl)
        ∧ (data.currentUrl = some "" →
            (mapGet (statusHandler now sid data m).registry sid).map TabletInfo.currentUrl
              = some t.currentUrl)
        ∧ (∀ v, data.currentUrl = some v → v ≠ "" →
            (mapGet (statusHandler now sid data m).registry sid).map TabletInfo.currentUrl
              = some v)
        ∧ (data.uptime = none →
            (mapGet (statusHandler now sid data m).registry sid).map TabletInfo.uptime
              = some t.uptime)
        ∧ (data.uptime = some "" →
            (mapGet (statusHandler now sid data m).registry sid).map TabletInfo.uptime
              = some t.uptime)
        ∧ (∀ v, data.uptime = some v → v ≠ "" →
            (mapGet (statusHandler now sid data m).registry sid).map TabletInfo.uptime
              = some v)
        ∧ (data.stats = none →
            (mapGet (statusHandler now sid data m).registry sid).map TabletInfo.stats
              = some t.stats)
        ∧ (∀ sts, data.stats = some sts →
            (mapGet (statusHandler now sid data m).registry sid).map TabletInfo.stats
              = some sts)
        ∧ (mapGet (statusHandler now sid data m).registry sid).map TabletInfo.id
            = some t.id
        ∧ (mapGet (statusHandler now sid data m).registry sid).map TabletInfo.name
            = some t.name
        ∧ (mapGet (statusHandler now sid data m).registry sid).map TabletInfo.ip
            = some t.ip
        ∧ (mapGet (statusHandler now sid data m).registry sid).map TabletInfo.status
            = some t.status)
      ∧ (mapGet m sid = none → statusHandler now sid data m = noStep m) := by
  intro now sid data m
  constructor
  · intro t hget
    have hreg : mapGet (statusHandler now sid data m).registry sid
        = some { t with
            currentUrl := jsOr data.currentUrl t.currentUrl
            uptime := jsOr data.uptime t.uptime
            stats := data.stats.getD t.stats
            lastSeen := now } := by
      simp [statusHandler, hget, mapGet_mapSet_self]
    refine ⟨by simp [hreg], ?_, ?_, ?_, ?_, ?_, ?_, ?_, ?_, ?_, ?_, ?_, ?_⟩
    · intro h
      simp [hreg, jsOr, h]
    · intro h
      simp [hreg, jsOr, h]
    · intro v h hv
      simp [hreg, jsOr, h, hv]
    · intro h
      simp [hreg, jsOr, h]
    · intro h
      simp [hreg, jsOr, h]
    · intro v h hv
      simp [hreg, jsOr, h, hv]
    · intro h
      simp [hreg, h]
    · intro sts h
      simp [hreg, h]
    · simp [hreg]
    · simp [hreg]
    · simp [hreg]
    · simp [hreg]
  · intro h
    simp [statusHandler, h]

/-- Witness for status_merge_amended: on the sample binding, a payload
carrying a non-empty currentUrl overwrites it, and lastSeen is
refreshed. -/
theorem status_merge_amended_witness :
    mapGet [("s", sampleTablet)] "s" = some sampleTablet
    ∧ (mapGet (statusHandler 7 "s" (StatusData.mk (some "u") none none)
        [("s", sampleTablet)]).registry "s").map TabletInfo.currentUrl = some "u"
    ∧ (mapGet (statusHandler 7 "s" (StatusData.mk (some "u") none none)
        [("s", sampleTablet)]).registry "s").map TabletInfo.lastSeen = some 7 := by
  have h := (status_merge_amended 7 "s" (StatusData.mk (some "u") none none)
      [("s", sampleTablet)]).1 sampleTablet (by decide)
  exact ⟨by decide, h.2.2.2.1 "u" rfl (by decide), h.1⟩
